import Mathlib

/-!
Verification of the CampusGuard incident-intelligence platform.

The repository ships two browser-side scripts (`static/js/main.js` and the
sidebar script) plus the specification of the Evidence Analysis & Incident
Intelligence Pipeline.  This file gives a shallow embedding of both layers:

* the client-side utilities (form validation, `formatTimeAgo`,
  `getIconForType`, the sidebar collapse state machine) are translated
  directly from the JavaScript source;
* the pipeline core (incident lifecycle, media analyzer, privacy redactor,
  hotspot scoring, alert routing) is not present in the source tree, so its
  operations are modelled from the specification text, as flagged on each
  definition.

JavaScript strings are embedded as Lean `String`; `Date` differences are
embedded as the signed millisecond difference (an `Int`); `Math.floor` of a
division by a positive constant is `Int.fdiv`; the DOM class list of an
element is a `List String`; `localStorage` is an `Option String` cell.
-/

namespace CampusGuard

/-- The character set stripped by JavaScript `String.prototype.trim`:
ECMAScript WhiteSpace (TAB, VT, FF, SP, NBSP, ZWNBSP and the Unicode
space-separator category Zs) together with the LineTerminators LF, CR,
LS and PS. -/
def jsWhitespace (c : Char) : Bool :=
  decide (c.toNat = 0x9 ∨ c.toNat = 0xA ∨ c.toNat = 0xB ∨ c.toNat = 0xC ∨
    c.toNat = 0xD ∨ c.toNat = 0x20 ∨ c.toNat = 0xA0 ∨ c.toNat = 0x1680 ∨
    (0x2000 ≤ c.toNat ∧ c.toNat ≤ 0x200A) ∨ c.toNat = 0x2028 ∨ c.toNat = 0x2029 ∨
    c.toNat = 0x202F ∨ c.toNat = 0x205F ∨ c.toNat = 0x3000 ∨ c.toNat = 0xFEFF)

/-- Embedding of JavaScript `String.prototype.trim`: drop the ECMAScript
whitespace characters from both ends of the character list.  (Lean's own
`String.trim` strips a narrower set and works on UTF-8 byte positions that
do not reduce in the kernel, so the char-list form is used.) -/
def jsTrim (s : String) : String :=
  String.mk (((s.data.dropWhile jsWhitespace).reverse.dropWhile jsWhitespace).reverse)

/-- One form control, as the submit listener in `main.js` sees it: its
current value, whether it carries the `required` attribute, and its CSS
class list. -/
structure FormField where
  value : String
  required : Bool
  classes : List String
deriving DecidableEq

/-- Embedding of `classList.add`: append the class when absent. -/
def addClass (c : String) (cs : List String) : List String :=
  if c ∈ cs then cs else cs ++ [c]

/-- Embedding of `classList.remove`: drop every occurrence of the class. -/
def removeClass (c : String) (cs : List String) : List String :=
  cs.filter (fun x => decide (x ≠ c))

/-- Per-field step of the submit listener (`main.js` lines 55-62): a
required field whose trimmed value is empty gains `is-invalid`, a required
field with content loses it, fields without `required` are untouched. -/
def validateField (f : FormField) : FormField :=
  if f.required then
    if jsTrim f.value = "" then
      { f with classes := addClass "is-invalid" f.classes }
    else
      { f with classes := removeClass "is-invalid" f.classes }
  else f

/-- The `isValid` flag computed by the submit listener: true when every
required field has a non-empty trimmed value. -/
def requiredFieldsValid (fields : List FormField) : Bool :=
  fields.all (fun f => !f.required || !(decide (jsTrim f.value = "")))

/-- The error banner text prepended by the submit listener. -/
def validationMessage : String := "Please fill in all required fields."

/-- Outcome of dispatching a submit event on a form: the updated fields,
whether `preventDefault`/`stopPropagation` ran, and the list of messages
prepended to the form element. -/
structure SubmitOutcome where
  fields : List FormField
  defaultPrevented : Bool
  propagationStopped : Bool
  prepended : List String
deriving DecidableEq

/-- Embedding of the form submit listener in `main.js` (lines 50-82): mark
each required field, and when any required field trims to empty, prevent
the event, stop propagation and prepend the error banner. -/
def submitForm (fields : List FormField) (prepended : List String) : SubmitOutcome :=
  let processed := fields.map validateField
  if requiredFieldsValid fields then
    { fields := processed, defaultPrevented := false, propagationStopped := false,
      prepended := prepended }
  else
    { fields := processed, defaultPrevented := true, propagationStopped := true,
      prepended := validationMessage :: prepended }

/-- Embedding of `formatTimeAgo` from `main.js` (lines 139-152).  The
argument is `now - date` in milliseconds; `Math.floor` of a division by a
positive constant is floor division `Int.fdiv`. -/
def formatTimeAgo (diffMs : Int) : String :=
  let diffSec := diffMs.fdiv 1000
  let diffMin := diffSec.fdiv 60
  let diffHour := diffMin.fdiv 60
  let diffDay := diffHour.fdiv 24
  if diffDay > 0 then toString diffDay ++ " day" ++ (if diffDay > 1 then "s" else "") ++ " ago"
  else if diffHour > 0 then toString diffHour ++ " hour" ++ (if diffHour > 1 then "s" else "") ++ " ago"
  else if diffMin > 0 then toString diffMin ++ " minute" ++ (if diffMin > 1 then "s" else "") ++ " ago"
  else "Just now"

/-- Statement of claim C8 in the claim's own terms: the elapsed time is
reported in the largest whole unit among days, hours and minutes (each
computed by one floor division of the millisecond difference), with a
plural "s" exactly when the count exceeds 1, and "Just now" otherwise. -/
def timeAgoSpec (diffMs : Int) : String :=
  let d := diffMs.fdiv 86400000
  let h := diffMs.fdiv 3600000
  let m := diffMs.fdiv 60000
  if d > 0 then toString d ++ " day" ++ (if d > 1 then "s" else "") ++ " ago"
  else if h > 0 then toString h ++ " hour" ++ (if h > 1 then "s" else "") ++ " ago"
  else if m > 0 then toString m ++ " minute" ++ (if m > 1 then "s" else "") ++ " ago"
  else "Just now"

/-- A JavaScript value as far as `icons[type] || 'info-circle'` can
produce one: a string, a function inherited from `Object.prototype`, or
the `Object.prototype` object itself (via the `__proto__` accessor). -/
inductive JsValue where
  | str (s : String)
  | fn (name : String)
  | obj (name : String)
deriving DecidableEq

/-- The property names an object literal inherits from
`Object.prototype`, all bound to truthy non-string values. -/
def objectPrototypeKeys : List String :=
  ["constructor", "hasOwnProperty", "isPrototypeOf", "propertyIsEnumerable",
   "toLocaleString", "toString", "valueOf", "__defineGetter__", "__defineSetter__",
   "__lookupGetter__", "__lookupSetter__", "__proto__"]

/-- Embedding of the property read `icons[type]` in `getIconForType`
(`main.js` lines 186-191): the four own properties of the object literal,
then the prototype chain (`Object.prototype` methods and the `__proto__`
accessor), then `undefined` (`none`). -/
def iconsLookup (t : String) : Option JsValue :=
  if t = "success" then some (JsValue.str "check-circle")
  else if t = "error" then some (JsValue.str "exclamation-circle")
  else if t = "warning" then some (JsValue.str "exclamation-triangle")
  else if t = "info" then some (JsValue.str "info-circle")
  else if t = "__proto__" then some (JsValue.obj "Object.prototype")
  else if t ∈ objectPrototypeKeys then some (JsValue.fn t)
  else none

/-- JavaScript truthiness of the values `icons[type]` can produce:
functions and objects are truthy, a string is truthy when non-empty. -/
def jsTruthy : JsValue → Bool
  | JsValue.str s => decide (s ≠ "")
  | JsValue.fn _ => true
  | JsValue.obj _ => true

/-- Embedding of `getIconForType` from `main.js` (lines 185-193):
`icons[type] || 'info-circle'`, keeping a truthy lookup result (own or
inherited) and falling back to `info-circle` otherwise. -/
def getIconForType (t : String) : JsValue :=
  match iconsLookup t with
  | some v => if jsTruthy v then v else JsValue.str "info-circle"
  | none => JsValue.str "info-circle"

/-- Browser-visible sidebar state: whether the sidebar element carries the
`collapsed` class, whether the main content carries `expanded`, and the
`localStorage` cell for the key `sidebarCollapsed`. -/
structure SidebarState where
  collapsed : Bool
  expanded : Bool
  stored : Option String
deriving DecidableEq

/-- Embedding of `collapseSidebar` from the sidebar script (lines 59-66):
add the classes and persist "true". -/
def collapseSidebar (s : SidebarState) : SidebarState :=
  { s with collapsed := true, expanded := true, stored := some "true" }

/-- Embedding of `expandSidebar` from the sidebar script (lines 68-75):
remove the classes and persist "false". -/
def expandSidebar (s : SidebarState) : SidebarState :=
  { s with collapsed := false, expanded := false, stored := some "false" }

/-- Embedding of `handleResize` (lines 48-53): at widths of 992 px or less
the `collapsed` and `expanded` classes are removed; the stored preference
is not touched. -/
def handleResize (width : Nat) (s : SidebarState) : SidebarState :=
  if width ≤ 992 then { s with collapsed := false, expanded := false } else s

/-- Embedding of the sidebar `DOMContentLoaded` handler (lines 9-15 and the
initial `handleResize()` call on line 56): the page starts with neither
class present, collapses when the stored preference reads "true", then runs
the initial resize check at the current window width. -/
def initSidebar (stored : Option String) (width : Nat) : SidebarState :=
  let s0 : SidebarState := { collapsed := false, expanded := false, stored := stored }
  let s1 := if stored = some "true" then collapseSidebar s0 else s0
  handleResize width s1

/-- Modelled from the spec: incident lifecycle states of the Incident
Record Manager (section 4.3); the `reopened` side-branch is the transition
from `resolved` back into `investigating`. -/
inductive Status where
  | submitted
  | triaged
  | investigating
  | resolved
  | rejected
deriving DecidableEq

/-- Modelled from the spec: incident category enumeration (section 3). -/
inductive Category where
  | theft
  | vandalism
  | unauthorizedAccess
  | cultActivity
  | cyber
  | other
deriving DecidableEq

/-- Modelled from the spec: an incident is sourced either from a
crowdsourced evidence upload or from a live-monitoring feed (section 4.5). -/
inductive Source where
  | evidenceUpload
  | liveFeed
deriving DecidableEq

/-- Modelled from the spec: media kind of an evidence item (section 3). -/
inductive MediaKind where
  | image
  | video
deriving DecidableEq

/-- Modelled from the spec: actor roles; the README lists admins, managers
and viewers. -/
inductive Role where
  | viewer
  | manager
  | admin
deriving DecidableEq

/-- Modelled from the spec: redaction progress on one evidence item
(section 4.2); failed face detection leaves the item access-gated. -/
inductive RedactionState where
  | pending
  | failed
  | completed
deriving DecidableEq

/-- Modelled from the spec: the AnalysisResult record (section 3): object
labels with confidence, risk markers with confidence, suggested severity
contribution, the analyzer version stamped for reproducibility, and the
`analysis_failed` tag for unparseable media (section 4.1). -/
structure AnalysisResult where
  objectLabels : List (String × Nat)
  weaponPresent : Bool
  weaponConfidence : Nat
  stolenItemMatch : Bool
  stolenItemConfidence : Nat
  suggestedSeverity : Nat
  analyzerVersion : Nat
  analysisFailed : Bool
deriving DecidableEq

/-- Modelled from the spec: the configurable confidence threshold a risk
marker needs before it is surfaced (section 4.1). -/
def riskMarkerThreshold : Nat := 70

/-- Modelled from the spec: the magic byte a media blob must start with to
be parseable for its declared kind. -/
def magicFor : MediaKind → Nat
  | MediaKind.image => 1
  | MediaKind.video => 2

/-- Modelled from the spec: media parsing in the Media Analyzer; a corrupt
file (empty, or wrong leading codec byte for its kind) does not parse and
yields `none` (section 4.1 failure mode). -/
def parseMedia (blob : List Nat) (kind : MediaKind) : Option (List Nat) :=
  match blob with
  | [] => none
  | b :: rest => if b = magicFor kind then some rest else none

/-- Modelled from the spec: confidence signal for the weapon-present risk
marker, a pure function of the payload bytes. -/
def signalWeapon (payload : List Nat) : Nat :=
  (payload.headD 0) % 101

/-- Modelled from the spec: confidence signal for the stolen-item-match
risk marker, a pure function of the payload bytes. -/
def signalStolen (payload : List Nat) : Nat :=
  ((payload.drop 1).headD 0) % 101

/-- Modelled from the spec: the Media Analyzer contract
`analyze(evidence_blob, media_kind) -> AnalysisResult` (section 4.1): pure
in the blob, version-stamped, emitting a risk marker only at or above the
configured threshold, and returning a result tagged `analysis_failed`
instead of raising when the media cannot be parsed. -/
def analyze (modelVersion : Nat) (blob : List Nat) (kind : MediaKind) : AnalysisResult :=
  match parseMedia blob kind with
  | none =>
      { objectLabels := [], weaponPresent := false, weaponConfidence := 0,
        stolenItemMatch := false, stolenItemConfidence := 0,
        suggestedSeverity := 0, analyzerVersion := modelVersion, analysisFailed := true }
  | some payload =>
      let wc := signalWeapon payload
      let sc := signalStolen payload
      { objectLabels := [("object", payload.length)],
        weaponPresent := decide (riskMarkerThreshold ≤ wc),
        weaponConfidence := wc,
        stolenItemMatch := decide (riskMarkerThreshold ≤ sc),
        stolenItemConfidence := sc,
        suggestedSeverity :=
          max (if riskMarkerThreshold ≤ wc then wc else 0)
            (if riskMarkerThreshold ≤ sc then sc else 0),
        analyzerVersion := modelVersion, analysisFailed := false }

/-- The pair of risk-marker flags of an analysis result (claim C4 compares
these across repeated runs). -/
def riskFlags (r : AnalysisResult) : Bool × Bool :=
  (r.weaponPresent, r.stolenItemMatch)

/-- Modelled from the spec: one evidence item (section 3): locator owned by
the Evidence Store Adapter, raw bytes, media kind, nullable analysis
result, redaction state, and the explicit admin override flag of
section 4.2. -/
structure EvidenceItem where
  id : Nat
  locator : String
  blob : List Nat
  kind : MediaKind
  analysis : Option AnalysisResult
  redaction : RedactionState
  adminOverride : Bool
deriving DecidableEq

/-- Modelled from the spec: one append-only audit log entry carrying actor,
action, prior state, new state and timestamp (sections 3 and 4.3). -/
structure AuditEntry where
  actor : String
  action : String
  priorState : Status
  newState : Status
  timestamp : Nat
deriving DecidableEq

/-- Modelled from the spec: the incident entity (section 3). -/
structure Incident where
  id : Nat
  location : String
  category : Category
  source : Source
  severity : Nat
  status : Status
  evidence : List EvidenceItem
  investigator : Option String
  resolutionNote : Option String
  auditLog : List AuditEntry
deriving DecidableEq

/-- Modelled from the spec: the lifecycle transition requests of
section 4.3. -/
inductive TransitionAction where
  | triage
  | startInvestigation
  | resolve (note : String)
  | reject
  | reopen
deriving DecidableEq

/-- Modelled from the spec: the typed rejection a vetoed transition
returns (section 4.3: a veto is never a silent no-op). -/
inductive TransitionRejected where
  | analysisIncomplete
  | noInvestigator
  | emptyResolutionNote
  | invalidFromState
deriving DecidableEq

/-- Audit-log action label of a transition request. -/
def actionName : TransitionAction → String
  | TransitionAction.triage => "triage"
  | TransitionAction.startInvestigation => "start-investigation"
  | TransitionAction.resolve _ => "resolve"
  | TransitionAction.reject => "reject"
  | TransitionAction.reopen => "reopen"

/-- Modelled from the spec: every transition appends exactly one audit
entry with actor, prior state, new state and timestamp (section 4.3), and
moves the status to the target state. -/
def recordTransition (inc : Incident) (actor : String) (act : TransitionAction)
    (target : Status) (now : Nat) : Incident :=
  { inc with
      status := target,
      auditLog := inc.auditLog ++
        [{ actor := actor, action := actionName act, priorState := inc.status,
           newState := target, timestamp := now }] }

/-- Modelled from the spec: the analyzer-suggested severity of an incident
is folded from the suggested contributions of its completed analyses. -/
def analyzerSuggestedSeverity (inc : Incident) : Nat :=
  (inc.evidence.filterMap (fun e => e.analysis)).foldl
    (fun m r => max m r.suggestedSeverity) 0

/-- Modelled from the spec: the Incident Record Manager's guarded state
machine (section 4.3).  `submitted -> triaged` needs an analysis pass over
every evidence item and sets severity to the max of the reporter-declared
and analyzer-suggested severity; `triaged -> investigating` needs an
assigned investigator; `investigating -> resolved` needs a non-empty
resolution note; `rejected` branches from `submitted` or `triaged`;
`reopen` returns `resolved` to `investigating`.  A vetoed transition
returns a typed rejection. -/
def applyTransition (inc : Incident) (actor : String) (act : TransitionAction)
    (now : Nat) : Except TransitionRejected Incident :=
  match act with
  | TransitionAction.triage =>
      if inc.status = Status.submitted then
        if inc.evidence.all (fun e => e.analysis.isSome) then
          Except.ok { recordTransition inc actor act Status.triaged now with
            severity := max inc.severity (analyzerSuggestedSeverity inc) }
        else Except.error TransitionRejected.analysisIncomplete
      else Except.error TransitionRejected.invalidFromState
  | TransitionAction.startInvestigation =>
      if inc.status = Status.triaged then
        if inc.investigator.isSome then
          Except.ok (recordTransition inc actor act Status.investigating now)
        else Except.error TransitionRejected.noInvestigator
      else Except.error TransitionRejected.invalidFromState
  | TransitionAction.resolve note =>
      if inc.status = Status.investigating then
        if note = "" then Except.error TransitionRejected.emptyResolutionNote
        else Except.ok { recordTransition inc actor act Status.resolved now with
          resolutionNote := some note }
      else Except.error TransitionRejected.invalidFromState
  | TransitionAction.reject =>
      if inc.status = Status.submitted ∨ inc.status = Status.triaged then
        Except.ok (recordTransition inc actor act Status.rejected now)
      else Except.error TransitionRejected.invalidFromState
  | TransitionAction.reopen =>
      if inc.status = Status.resolved then
        Except.ok (recordTransition inc actor act Status.investigating now)
      else Except.error TransitionRejected.invalidFromState

/-- Modelled from the spec: replaying the audit log from the initial state
`submitted`, each entry moving the state to its recorded new state. -/
def replayStatus (log : List AuditEntry) : Status :=
  log.foldl (fun _ e => e.newState) Status.submitted

/-- Modelled from the spec: a freshly submitted incident (section 6:
submission returns the incident in `submitted` state with an empty audit
log). -/
def initialIncident (iid : Nat) (loc : String) (cat : Category) (src : Source)
    (sev : Nat) (ev : List EvidenceItem) : Incident :=
  { id := iid, location := loc, category := cat, source := src, severity := sev,
    status := Status.submitted, evidence := ev, investigator := none,
    resolutionNote := none, auditLog := [] }

/-- Modelled from the spec: the analysis completion callback attaches the
analyzer's result to every evidence item of the incident; the incident's
own status and audit log are untouched (failures in analysis are
best-effort overlays, section 7). -/
def attachAnalyses (modelVersion : Nat) (inc : Incident) : Incident :=
  { inc with evidence :=
      inc.evidence.map (fun e => { e with analysis := some (analyze modelVersion e.blob e.kind) }) }

/-- Modelled from the spec: the incident states reachable by the core:
starting from a fresh submission and proceeding by guarded transitions,
investigator assignment, and analysis completion callbacks. -/
inductive Reaches : Incident → Prop where
  | init : ∀ iid loc cat src sev ev, Reaches (initialIncident iid loc cat src sev ev)
  | step : ∀ inc actor act now inc', Reaches inc →
      applyTransition inc actor act now = Except.ok inc' → Reaches inc'
  | assign : ∀ inc name, Reaches inc → Reaches { inc with investigator := some name }
  | attach : ∀ inc v, Reaches inc → Reaches (attachAnalyses v inc)

/-- Modelled from the spec: alert routing configuration; the emergency
severity threshold is an explicit configurable value (section 4.5). -/
structure AlertConfig where
  emergencyThreshold : Nat
deriving DecidableEq

/-- Modelled from the spec: categories that force an alert regardless of
severity (section 4.5 names cult-activity as the emergency category). -/
def isEmergencyCategory (c : Category) : Bool :=
  decide (c = Category.cultActivity)

/-- Modelled from the spec: a platform user with role and location scope;
`none` is institution-wide scope. -/
structure User where
  name : String
  role : Role
  location : Option String
deriving DecidableEq

/-- Modelled from the spec: an emitted alert with recipients resolved at
emission time (section 3). -/
structure AlertEvent where
  incidentId : Nat
  recipients : List String
  channel : String
  createdAt : Nat
deriving DecidableEq

/-- Modelled from the spec: recipient resolution (section 4.5): managers
and admins scoped to the incident's location, falling back to
institution-wide admins when no location-scoped recipient exists. -/
def scopedRecipients (users : List User) (loc : String) : List String :=
  let locScoped := users.filter
    (fun u => decide ((u.role = Role.manager ∨ u.role = Role.admin) ∧ u.location = some loc))
  if locScoped = [] then
    (users.filter (fun u => decide (u.role = Role.admin ∧ u.location = none))).map User.name
  else
    locScoped.map User.name

/-- Modelled from the spec: the Alert Routing Engine (section 4.5).
Live-feed incidents always alert; evidence-upload incidents alert only
when severity reaches the configured emergency threshold or the category
is an emergency category, and otherwise emit nothing. -/
def routeAlerts (cfg : AlertConfig) (users : List User) (inc : Incident)
    (now : Nat) : List AlertEvent :=
  match inc.source with
  | Source.liveFeed =>
      [{ incidentId := inc.id, recipients := scopedRecipients users inc.location,
         channel := "realtime", createdAt := now }]
  | Source.evidenceUpload =>
      if cfg.emergencyThreshold ≤ inc.severity ∨ isEmergencyCategory inc.category = true then
        [{ incidentId := inc.id, recipients := scopedRecipients users inc.location,
           channel := "realtime", createdAt := now }]
      else []

/-- Modelled from the spec: the authoritative store of incident records. -/
structure IncidentStore where
  incidents : List Incident
deriving DecidableEq

/-- Modelled from the spec: submitting an incident appends its record to
the store. -/
def submitIncident (store : IncidentStore) (inc : Incident) : IncidentStore :=
  { incidents := store.incidents ++ [inc] }

/-- Modelled from the spec: the Intelligence Query Service lookup of an
incident record by identity. -/
def queryIncident (store : IncidentStore) (iid : Nat) : Option Incident :=
  store.incidents.find? (fun i => decide (i.id = iid))

/-- Modelled from the spec: one contributing incident of a hotspot cluster,
reduced to the severity and occurrence time the aggregate score reads. -/
structure ContributingIncident where
  severity : Nat
  time : Nat
deriving DecidableEq

/-- Modelled from the spec: the hotspot aggregate score (section 4.4): each
contributing incident adds its severity weighted by a tunable decay of its
age at evaluation time; the decay function is a parameter. -/
def aggregateScore (decay : Nat → Nat) (tEval : Nat)
    (incs : List ContributingIncident) : Nat :=
  (incs.map (fun i => i.severity * decay (tEval - i.time))).sum

/-- Numeric rank of a role, for the below-manager comparisons of
section 4.2. -/
def roleRank : Role → Nat
  | Role.viewer => 0
  | Role.manager => 1
  | Role.admin => 2

/-- Modelled from the spec: the user-visible status of an evidence item:
anything short of completed redaction shows as `redaction_pending`
(section 4.2 fails closed). -/
def evidenceDisplayStatus (e : EvidenceItem) : String :=
  if e.redaction = RedactionState.completed then "redacted" else "redaction_pending"

/-- Modelled from the spec: whether an actor may retrieve the raw-media
locator: redaction completed, or the actor is manager/admin, or an admin
override was recorded (sections 3 and 4.2). -/
def canRetrieveRawLocator (e : EvidenceItem) (r : Role) : Bool :=
  decide (e.redaction = RedactionState.completed ∨
    roleRank Role.manager ≤ roleRank r ∨ e.adminOverride = true)

/-- Modelled from the spec: locator retrieval fails closed with a
`redaction_pending` denial for unauthorized actors. -/
def retrieveRawLocator (e : EvidenceItem) (r : Role) : Except String String :=
  if canRetrieveRawLocator e r = true then Except.ok e.locator
  else Except.error "redaction_pending"

/-- C7: a submission with some required field empty after trimming is
rejected at the boundary (event prevented and stopped, each empty required
field marked `is-invalid`, the error banner prepended), while a submission
whose required fields are all non-empty proceeds unblocked. -/
theorem form_validation_boundary (fields : List FormField) (prepended : List String) :
    ((∃ f, f ∈ fields ∧ f.required = true ∧ jsTrim f.value = "") →
        (submitForm fields prepended).defaultPrevented = true ∧
        (submitForm fields prepended).propagationStopped = true ∧
        (submitForm fields prepended).prepended = validationMessage :: prepended ∧
        ∀ f, f ∈ fields → f.required = true → jsTrim f.value = "" →
          "is-invalid" ∈ (validateField f).classes) ∧
    ((∀ f, f ∈ fields → f.required = true → jsTrim f.value ≠ "") →
        (submitForm fields prepended).defaultPrevented = false ∧
        (submitForm fields prepended).propagationStopped = false ∧
        (submitForm fields prepended).prepended = prepended) := by
  constructor
  · rintro ⟨f, hf, hreq, hempty⟩
    have hval : requiredFieldsValid fields = false := by
      have hne : ¬ requiredFieldsValid fields = true := by
        intro hall
        have := List.all_eq_true.mp hall f hf
        simp [hreq, hempty] at this
      exact Bool.eq_false_iff.mpr (fun hc => hne hc)
    refine ⟨?_, ?_, ?_, ?_⟩
    · simp [submitForm, hval]
    · simp [submitForm, hval]
    · simp [submitForm, hval]
    · intro g hg hgreq hgempty
      unfold validateField
      rw [hgreq]
      simp only [if_true, hgempty, if_pos]
      unfold addClass
      split
      · assumption
      · exact List.mem_append.mpr (Or.inr (List.mem_singleton.mpr rfl))
  · intro hall
    have hval : requiredFieldsValid fields = true := by
      apply List.all_eq_true.mpr
      intro f hf
      cases hr : f.required with
      | false => simp
      | true =>
        have := hall f hf hr
        simp [this]
    refine ⟨?_, ?_, ?_⟩ <;> simp [submitForm, hval]

/-- Witness for C7 at concrete forms: a required field holding only a
space and a no-break space blocks the submission, a filled one does not. -/
theorem form_validation_boundary_witness :
    (submitForm [{ value := " \u00A0", required := true, classes := [] }] []).defaultPrevented = true ∧
    (submitForm [{ value := "ok", required := true, classes := [] }] []).defaultPrevented = false := by
  constructor
  · exact ((form_validation_boundary [{ value := " \u00A0", required := true, classes := [] }] []).1
      ⟨{ value := " \u00A0", required := true, classes := [] }, by simp, rfl, by decide⟩).1
  · exact ((form_validation_boundary [{ value := "ok", required := true, classes := [] }] []).2
      (by decide)).1

/-- C8: `formatTimeAgo` agrees with the single-division description: any
difference below 60 seconds (in particular any future date) prints
"Just now", and otherwise the largest whole unit among days, hours and
minutes is printed with "s" exactly when the count exceeds 1. -/
theorem formatTimeAgo_spec (diffMs : Int) :
    formatTimeAgo diffMs = timeAgoSpec diffMs ∧
    (diffMs < 60000 → formatTimeAgo diffMs = "Just now") := by
  have e1000 : ∀ a : Int, a.fdiv 1000 = a / 1000 := fun a => Int.fdiv_eq_ediv a (by decide)
  have e60 : ∀ a : Int, a.fdiv 60 = a / 60 := fun a => Int.fdiv_eq_ediv a (by decide)
  have e24 : ∀ a : Int, a.fdiv 24 = a / 24 := fun a => Int.fdiv_eq_ediv a (by decide)
  have e60000 : ∀ a : Int, a.fdiv 60000 = a / 60000 := fun a => Int.fdiv_eq_ediv a (by decide)
  have e3600000 : ∀ a : Int, a.fdiv 3600000 = a / 3600000 := fun a => Int.fdiv_eq_ediv a (by decide)
  have e86400000 : ∀ a : Int, a.fdiv 86400000 = a / 86400000 :=
    fun a => Int.fdiv_eq_ediv a (by decide)
  have cday : diffMs / 1000 / 60 / 60 / 24 = diffMs / 86400000 := by omega
  have chour : diffMs / 1000 / 60 / 60 = diffMs / 3600000 := by omega
  have cmin : diffMs / 1000 / 60 = diffMs / 60000 := by omega
  constructor
  · simp only [formatTimeAgo, timeAgoSpec, e1000, e60, e24, e60000, e3600000, e86400000]
    rw [cday, chour, cmin]
  · intro h
    simp only [formatTimeAgo, e1000, e60, e24]
    rw [cday, chour, cmin]
    have hd : ¬ (0 < diffMs / 86400000) := by omega
    have hh : ¬ (0 < diffMs / 3600000) := by omega
    have hm : ¬ (0 < diffMs / 60000) := by omega
    simp only [gt_iff_lt, hd, hh, hm, if_false]

/-- Witness for C8 at concrete differences: a 5-second-in-the-future date
and a 59-second-old date both print "Just now", and the unit descriptions
agree at 90 minutes. -/
theorem formatTimeAgo_spec_witness :
    formatTimeAgo (-5000) = "Just now" ∧
    formatTimeAgo 59000 = "Just now" ∧
    formatTimeAgo 5400000 = timeAgoSpec 5400000 := by
  refine ⟨(formatTimeAgo_spec (-5000)).2 (by decide),
    (formatTimeAgo_spec 59000).2 (by decide),
    (formatTimeAgo_spec 5400000).1⟩

/-- Counterexample to C9 as stated: at the input "constructor" the
lookup hits the inherited `Object.prototype.constructor`, a truthy
function, so `getIconForType` returns none of the icon names — in
particular not the claimed `info-circle` default. -/
theorem getIconForType_total_counterexample :
    getIconForType "constructor" = JsValue.fn "constructor" ∧
    getIconForType "constructor" ≠ JsValue.str "check-circle" ∧
    getIconForType "constructor" ≠ JsValue.str "exclamation-circle" ∧
    getIconForType "constructor" ≠ JsValue.str "exclamation-triangle" ∧
    getIconForType "constructor" ≠ JsValue.str "info-circle" := by
  refine ⟨by decide, by decide, by decide, by decide, by decide⟩

/-- C9 amended: `getIconForType` maps the four known types to their
icons and falls back to `info-circle` on every other input except the
property names inherited from `Object.prototype`, where the lookup
returns the inherited truthy non-string value; so its result is one of
the four icon names unless the input is an inherited property name. -/
theorem getIconForType_amended (t : String) :
    getIconForType "success" = JsValue.str "check-circle" ∧
    getIconForType "error" = JsValue.str "exclamation-circle" ∧
    getIconForType "warning" = JsValue.str "exclamation-triangle" ∧
    getIconForType "info" = JsValue.str "info-circle" ∧
    (t ∉ objectPrototypeKeys → t ≠ "success" → t ≠ "error" → t ≠ "warning" → t ≠ "info" →
      getIconForType t = JsValue.str "info-circle") ∧
    (getIconForType t = JsValue.str "check-circle" ∨
      getIconForType t = JsValue.str "exclamation-circle" ∨
      getIconForType t = JsValue.str "exclamation-triangle" ∨
      getIconForType t = JsValue.str "info-circle" ∨
      t ∈ objectPrototypeKeys) := by
  refine ⟨by decide, by decide, by decide, by decide, ?_, ?_⟩
  · intro hp h1 h2 h3 h4
    have h5 : t ≠ "__proto__" := by
      intro he
      exact hp (by rw [he]; decide)
    simp [getIconForType, iconsLookup, h1, h2, h3, h4, h5, hp]
  · unfold getIconForType iconsLookup
    split_ifs with h1 h2 h3 h4 h5 h6
    · simp [jsTruthy]
    · simp [jsTruthy]
    · simp [jsTruthy]
    · simp [jsTruthy]
    · subst h5
      simp [jsTruthy]
      decide
    · simp [jsTruthy, h6]
    · simp

/-- Witness for the amended C9 at a concrete unknown type that is not an
inherited property name. -/
theorem getIconForType_amended_witness :
    getIconForType "primary" = JsValue.str "info-circle" :=
  (getIconForType_amended "primary").2.2.2.2.1
    (by decide) (by decide) (by decide) (by decide) (by decide)

/-- C10: the collapsed state round-trips through `localStorage`
(`collapseSidebar` stores "true" and adds the class, `expandSidebar` stores
"false" and removes it); on page load at widths above 992 px the sidebar
ends up collapsed exactly when the stored value is "true", and at 992 px or
below the class is always removed. -/
theorem sidebar_collapsed_roundtrip (s : SidebarState) (stored : Option String) (width : Nat) :
    ((collapseSidebar s).stored = some "true" ∧ (collapseSidebar s).collapsed = true) ∧
    ((expandSidebar s).stored = some "false" ∧ (expandSidebar s).collapsed = false) ∧
    (992 < width → ((initSidebar stored width).collapsed = true ↔ stored = some "true")) ∧
    (width ≤ 992 → (initSidebar stored width).collapsed = false) := by
  refine ⟨⟨rfl, rfl⟩, ⟨rfl, rfl⟩, ?_, ?_⟩
  · intro hw
    have hw' : ¬ width ≤ 992 := Nat.not_le.mpr hw
    by_cases hst : stored = some "true"
    · simp [initSidebar, handleResize, collapseSidebar, hst, hw']
    · simp [initSidebar, handleResize, hst, hw']
  · intro hw
    by_cases hst : stored = some "true"
    · simp [initSidebar, handleResize, collapseSidebar, hst, hw]
    · simp [initSidebar, handleResize, hst, hw]

/-- Witness for C10 at concrete widths and stored values. -/
theorem sidebar_collapsed_roundtrip_witness :
    ((initSidebar (some "true") 1200).collapsed = true ↔ some "true" = some "true") ∧
    (initSidebar (some "true") 992).collapsed = false := by
  exact ⟨(sidebar_collapsed_roundtrip ⟨false, false, none⟩ (some "true") 1200).2.2.1 (by decide),
    (sidebar_collapsed_roundtrip ⟨false, false, none⟩ (some "true") 992).2.2.2 (by decide)⟩

/-- Every successful transition appends exactly one audit entry carrying
the acting actor, the prior state, the new state and the timestamp; the
previous log is untouched as a prefix of the new one. -/
theorem applyTransition_ok_auditLog (inc : Incident) (actor : String)
    (act : TransitionAction) (now : Nat) (inc' : Incident)
    (h : applyTransition inc actor act now = Except.ok inc') :
    inc'.auditLog = inc.auditLog ++
      [{ actor := actor, action := actionName act, priorState := inc.status,
         newState := inc'.status, timestamp := now }] := by
  cases act with
  | triage =>
    simp only [applyTransition] at h
    split_ifs at h with h1 h2
    · rw [Except.ok.injEq] at h
      subst h
      simp [recordTransition, actionName]
  | startInvestigation =>
    simp only [applyTransition] at h
    split_ifs at h with h1 h2
    · rw [Except.ok.injEq] at h
      subst h
      simp [recordTransition, actionName]
  | resolve note =>
    simp only [applyTransition] at h
    split_ifs at h with h1 h2
    · rw [Except.ok.injEq] at h
      subst h
      simp [recordTransition, actionName]
  | reject =>
    simp only [applyTransition] at h
    split_ifs at h with h1
    · rw [Except.ok.injEq] at h
      subst h
      simp [recordTransition, actionName]
  | reopen =>
    simp only [applyTransition] at h
    split_ifs at h with h1
    · rw [Except.ok.injEq] at h
      subst h
      simp [recordTransition, actionName]

/-- C1: on every reachable incident, replaying the audit log from
`submitted` reproduces the current status exactly, and every further
status transition appends exactly one audit entry to the existing log,
never rewriting earlier entries. -/
theorem audit_log_replay_consistent (inc : Incident) (h : Reaches inc) :
    replayStatus inc.auditLog = inc.status ∧
    ∀ actor act now inc', applyTransition inc actor act now = Except.ok inc' →
      inc'.auditLog = inc.auditLog ++
        [{ actor := actor, action := actionName act, priorState := inc.status,
           newState := inc'.status, timestamp := now }] := by
  refine ⟨?_, fun actor act now inc' hok =>
    applyTransition_ok_auditLog inc actor act now inc' hok⟩
  induction h with
  | init iid loc cat src sev ev => rfl
  | step inc actor act now inc' hr hok ih =>
    have happ := applyTransition_ok_auditLog inc actor act now inc' hok
    rw [happ]
    simp [replayStatus, List.foldl_append]
  | assign inc name hr ih => simpa using ih
  | attach inc v hr ih => simpa [attachAnalyses] using ih

/-- Witness for C1: the fresh incident replays to `submitted`, and a
concrete rejection appends exactly its one audit entry. -/
theorem audit_log_replay_consistent_witness :
    replayStatus (initialIncident 1 "Block B" Category.theft Source.evidenceUpload 10 []).auditLog
      = (initialIncident 1 "Block B" Category.theft Source.evidenceUpload 10 []).status ∧
    (recordTransition (initialIncident 1 "Block B" Category.theft Source.evidenceUpload 10 [])
        "admin" TransitionAction.reject Status.rejected 3).auditLog
      = (initialIncident 1 "Block B" Category.theft Source.evidenceUpload 10 []).auditLog ++
        [{ actor := "admin", action := actionName TransitionAction.reject,
           priorState := (initialIncident 1 "Block B" Category.theft Source.evidenceUpload 10 []).status,
           newState := (recordTransition
             (initialIncident 1 "Block B" Category.theft Source.evidenceUpload 10 [])
             "admin" TransitionAction.reject Status.rejected 3).status,
           timestamp := 3 }] := by
  refine ⟨(audit_log_replay_consistent _
    (Reaches.init 1 "Block B" Category.theft Source.evidenceUpload 10 [])).1, ?_⟩
  exact (audit_log_replay_consistent _
    (Reaches.init 1 "Block B" Category.theft Source.evidenceUpload 10 [])).2
    "admin" TransitionAction.reject 3 _ rfl

/-- C2: an evidence-upload incident of a non-emergency category below the
emergency threshold emits zero alert events while its record is created
and queryable; at or above the threshold exactly one alert event is
emitted and its recipients include every manager scoped to the incident's
location. -/
theorem alert_routing_emergency_threshold (cfg : AlertConfig) (users : List User)
    (store : IncidentStore) (inc : Incident) (now : Nat)
    (hsrc : inc.source = Source.evidenceUpload)
    (hcat : isEmergencyCategory inc.category = false) :
    (inc.severity < cfg.emergencyThreshold →
        routeAlerts cfg users inc now = [] ∧
        inc ∈ (submitIncident store inc).incidents ∧
        (queryIncident (submitIncident store inc) inc.id).isSome = true) ∧
    (cfg.emergencyThreshold ≤ inc.severity →
        ∃ ev, routeAlerts cfg users inc now = [ev] ∧
          ∀ u, u ∈ users → u.role = Role.manager → u.location = some inc.location →
            u.name ∈ ev.recipients) := by
  constructor
  · intro hsev
    have hcond : ¬ (cfg.emergencyThreshold ≤ inc.severity ∨
        isEmergencyCategory inc.category = true) := by
      rintro (hc | hc)
      · exact absurd hc (Nat.not_le.mpr hsev)
      · simp [hcat] at hc
    refine ⟨?_, ?_, ?_⟩
    · simp [routeAlerts, hsrc, hcond]
    · simp [submitIncident]
    · rw [queryIncident, List.find?_isSome]
      exact ⟨inc, by simp [submitIncident], by simp⟩
  · intro hsev
    refine ⟨{ incidentId := inc.id,
              recipients := scopedRecipients users inc.location,
              channel := "realtime",
              createdAt := now }, ?_, ?_⟩
    · simp [routeAlerts, hsrc, hsev]
    · intro u hu hrole hloc
      have hmem : u ∈ users.filter
          (fun u => decide ((u.role = Role.manager ∨ u.role = Role.admin) ∧
            u.location = some inc.location)) := by
        rw [List.mem_filter]
        exact ⟨hu, by simp [hrole, hloc]⟩
      simp only [scopedRecipients]
      rw [if_neg (List.ne_nil_of_mem hmem)]
      exact List.mem_map.mpr ⟨u, hmem, rfl⟩

/-- Witness for C2: a severity-10 theft upload at "Block B" yields no
alert; the same content at severity 90 yields exactly one. -/
theorem alert_routing_emergency_threshold_witness :
    routeAlerts { emergencyThreshold := 70 }
      [{ name := "m1", role := Role.manager, location := some "Block B" }]
      (initialIncident 1 "Block B" Category.theft Source.evidenceUpload 10 []) 5 = [] ∧
    (routeAlerts { emergencyThreshold := 70 }
      [{ name := "m1", role := Role.manager, location := some "Block B" }]
      (initialIncident 2 "Block B" Category.theft Source.evidenceUpload 90 []) 5).length = 1 := by
  constructor
  · exact ((alert_routing_emergency_threshold { emergencyThreshold := 70 }
      [{ name := "m1", role := Role.manager, location := some "Block B" }] ⟨[]⟩
      (initialIncident 1 "Block B" Category.theft Source.evidenceUpload 10 []) 5
      rfl (by decide)).1 (by decide)).1
  · obtain ⟨ev, hev, _⟩ := (alert_routing_emergency_threshold { emergencyThreshold := 70 }
      [{ name := "m1", role := Role.manager, location := some "Block B" }] ⟨[]⟩
      (initialIncident 2 "Block B" Category.theft Source.evidenceUpload 90 []) 5
      rfl (by decide)).2 (by decide)
    rw [hev]
    rfl

/-- C3: for any decay function that never grows with age, the hotspot
aggregate score of a fixed incident set is non-increasing as the
evaluation time moves forward, and it is monotonically non-decreasing both
in incident count and in pointwise incident severity. -/
theorem hotspot_score_monotone (decay : Nat → Nat)
    (hdecay : ∀ a b : Nat, a ≤ b → decay b ≤ decay a)
    (t1 t2 : Nat) (ht : t1 ≤ t2)
    (incs extra incs2 : List ContributingIncident)
    (hsev : List.Forall₂ (fun i j => i.time = j.time ∧ i.severity ≤ j.severity) incs incs2) :
    aggregateScore decay t2 incs ≤ aggregateScore decay t1 incs ∧
    aggregateScore decay t1 incs ≤ aggregateScore decay t1 (incs ++ extra) ∧
    aggregateScore decay t1 incs ≤ aggregateScore decay t1 incs2 := by
  refine ⟨?_, ?_, ?_⟩
  · clear hsev
    induction incs with
    | nil => simp [aggregateScore]
    | cons i rest ih =>
      simp only [aggregateScore, List.map_cons, List.sum_cons]
      exact Nat.add_le_add
        (Nat.mul_le_mul (Nat.le_refl i.severity)
          (hdecay _ _ (Nat.sub_le_sub_right ht i.time)))
        ih
  · simp only [aggregateScore, List.map_append, List.sum_append]
    exact Nat.le_add_right _ _
  · induction hsev with
    | nil => exact Nat.le_refl _
    | cons hij htail ih =>
      simp only [aggregateScore, List.map_cons, List.sum_cons]
      rw [hij.1]
      exact Nat.add_le_add (Nat.mul_le_mul hij.2 (Nat.le_refl _)) ih

/-- Witness for C3 with the concrete decay function `10 - age`: later
evaluation scores less, an extra incident scores more, a higher severity
scores more. -/
theorem hotspot_score_monotone_witness :
    aggregateScore (fun a => 10 - a) 2 [⟨5, 0⟩] ≤ aggregateScore (fun a => 10 - a) 1 [⟨5, 0⟩] ∧
    aggregateScore (fun a => 10 - a) 1 [⟨5, 0⟩] ≤
      aggregateScore (fun a => 10 - a) 1 ([⟨5, 0⟩] ++ [⟨3, 1⟩]) ∧
    aggregateScore (fun a => 10 - a) 1 [⟨5, 0⟩] ≤ aggregateScore (fun a => 10 - a) 1 [⟨7, 0⟩] :=
  hotspot_score_monotone (fun a => 10 - a) (fun a b h => Nat.sub_le_sub_left h 10) 1 2
    (by decide) [⟨5, 0⟩] [⟨3, 1⟩] [⟨7, 0⟩] (List.Forall₂.cons ⟨rfl, by decide⟩ List.Forall₂.nil)

/-- C4: for a fixed analyzer model version, two runs of `analyze` on
byte-identical blobs produce identical risk-marker flags, and the model
version is stamped on the result. -/
theorem analyzer_deterministic (v : Nat) (b1 b2 : List Nat) (k : MediaKind)
    (hb : b1 = b2) :
    riskFlags (analyze v b1 k) = riskFlags (analyze v b2 k) ∧
    (analyze v b1 k).analyzerVersion = v := by
  subst hb
  refine ⟨rfl, ?_⟩
  cases hp : parseMedia b1 k <;> simp [analyze, hp]

/-- Witness for C4 on a concrete image blob. -/
theorem analyzer_deterministic_witness :
    riskFlags (analyze 3 [1, 99, 80] MediaKind.image) =
      riskFlags (analyze 3 [1, 99, 80] MediaKind.image) ∧
    (analyze 3 [1, 99, 80] MediaKind.image).analyzerVersion = 3 :=
  analyzer_deterministic 3 [1, 99, 80] [1, 99, 80] MediaKind.image rfl

/-- C5: when redaction has failed or not yet completed and no admin
override is recorded, any actor whose role is below manager is denied the
raw-media locator, and the item shows as `redaction_pending`. -/
theorem redaction_fails_closed (e : EvidenceItem) (r : Role)
    (hred : e.redaction ≠ RedactionState.completed)
    (hov : e.adminOverride = false)
    (hr : roleRank r < roleRank Role.manager) :
    retrieveRawLocator e r = Except.error "redaction_pending" ∧
    evidenceDisplayStatus e = "redaction_pending" := by
  have hcan : canRetrieveRawLocator e r = false := by
    simp only [canRetrieveRawLocator, decide_eq_false_iff_not]
    rintro (hc | hc | hc)
    · exact hred hc
    · exact absurd hc (Nat.not_le.mpr hr)
    · simp [hov] at hc
  constructor
  · simp [retrieveRawLocator, hcan]
  · simp [evidenceDisplayStatus, hred]

/-- Witness for C5: a viewer is denied the locator of a
redaction-failed item. -/
theorem redaction_fails_closed_witness :
    retrieveRawLocator
      { id := 1, locator := "blob-1", blob := [1, 2], kind := MediaKind.image,
        analysis := none, redaction := RedactionState.failed, adminOverride := false }
      Role.viewer = Except.error "redaction_pending" ∧
    evidenceDisplayStatus
      { id := 1, locator := "blob-1", blob := [1, 2], kind := MediaKind.image,
        analysis := none, redaction := RedactionState.failed, adminOverride := false }
      = "redaction_pending" :=
  redaction_fails_closed
    { id := 1, locator := "blob-1", blob := [1, 2], kind := MediaKind.image,
      analysis := none, redaction := RedactionState.failed, adminOverride := false }
    Role.viewer (by decide) rfl (by decide)

/-- C6: unparseable media makes `analyze` return a result tagged
`analysis_failed` instead of raising; attaching the analyses leaves the
incident's status untouched and its evidence present, and the incident
still proceeds through its lifecycle: the triage transition succeeds with
the failed analysis counting as a completed pass. -/
theorem analysis_failure_isolated (v : Nat) (blob : List Nat) (kind : MediaKind)
    (hbad : parseMedia blob kind = none)
    (inc : Incident) (actor : String) (now : Nat)
    (hst : inc.status = Status.submitted) :
    (analyze v blob kind).analysisFailed = true ∧
    (attachAnalyses v inc).status = inc.status ∧
    (attachAnalyses v inc).evidence.length = inc.evidence.length ∧
    ∃ inc', applyTransition (attachAnalyses v inc) actor TransitionAction.triage now
        = Except.ok inc' ∧ inc'.status = Status.triaged := by
  have hst' : (attachAnalyses v inc).status = Status.submitted := hst
  have hall : (attachAnalyses v inc).evidence.all (fun e => e.analysis.isSome) = true := by
    simp [attachAnalyses, List.all_map, Function.comp, List.all_eq_true]
  refine ⟨by simp [analyze, hbad], rfl, by simp [attachAnalyses], ?_⟩
  refine ⟨{ recordTransition (attachAnalyses v inc) actor TransitionAction.triage
      Status.triaged now with
      severity := max (attachAnalyses v inc).severity
        (analyzerSuggestedSeverity (attachAnalyses v inc)) }, ?_, rfl⟩
  simp [applyTransition, hst', hall]

/-- Witness for C6: a corrupt one-byte blob is tagged failed and the
incident holding it still triages. -/
theorem analysis_failure_isolated_witness :
    (analyze 3 [0] MediaKind.image).analysisFailed = true ∧
    (attachAnalyses 3 (initialIncident 1 "Block B" Category.theft Source.evidenceUpload 10
        [{ id := 1, locator := "l", blob := [0], kind := MediaKind.image,
           analysis := none, redaction := RedactionState.pending, adminOverride := false }])).status
      = (initialIncident 1 "Block B" Category.theft Source.evidenceUpload 10
        [{ id := 1, locator := "l", blob := [0], kind := MediaKind.image,
           analysis := none, redaction := RedactionState.pending, adminOverride := false }]).status := by
  have h := analysis_failure_isolated 3 [0] MediaKind.image rfl
    (initialIncident 1 "Block B" Category.theft Source.evidenceUpload 10
      [{ id := 1, locator := "l", blob := [0], kind := MediaKind.image,
         analysis := none, redaction := RedactionState.pending, adminOverride := false }])
    "mgr" 7 rfl
  exact ⟨h.1, h.2.1⟩

end CampusGuard
